import Mathlib

/-!
Verification of the arr-monitor-manager quality-gate and orchestration logic.

The definitions below are a shallow embedding of `src/app.py`,
`src/api_client.py` and `src/config_manager.py`:

* Python dict fields that may be absent are `Option`; fields that may be
  absent **or** explicitly `null` are `Option (Option _)` (outer `none` =
  key absent, `some none` = the key holds `None`).
* Python exceptions raised inside a `try` block are modelled with
  `Except Unit`; the enclosing handler turns them into a `false` result.
* Remote calls are abstracted by environment records supplying each call's
  outcome; the calls an orchestrator issues are recorded as an event trace.
-/

/-- The two gate-relevant fields of a stored configuration, as the
orchestrators in `app.py` read them: `config.get('quality_score')`
(absent or `None` collapse to `none`) and `config.get('format_name')`. -/
structure GateConfig where
  quality_score : Option Int
  format_name : Option String
deriving Repr, DecidableEq

/-- Python's `needle in haystack` on strings: contiguous substring test. -/
def pyInStr (needle haystack : String) : Bool :=
  decide (needle.data <:+: haystack.data)

/-- The `for custom_format in format_name: if config['format_name'].lower()
in custom_format.lower(): ... break` loop of `app.py` (lines 252-256,
297-301, 340-344, 391-395): first match wins, result is whether any
entry matched. -/
def formatLoop (sub : String) : List String → Bool
  | [] => false
  | cf :: rest =>
    if pyInStr sub.toLower cf.toLower then true else formatLoop sub rest

/-- Criterion 2 of the gate: `if config.get('format_name') and format_name:`
followed by the matching loop.  Python truthiness: `none` and the empty
string are falsy for the configured substring, the empty list is falsy for
the extracted names. -/
def formatNameCheck (cfg_fn : Option String) (format_name : List String) : Bool :=
  match cfg_fn with
  | none => false
  | some sub =>
    if sub = "" then false
    else if format_name.isEmpty then false
    else formatLoop sub format_name

/-- The quality gate of `app.py` (the duplicated block at lines 244-256,
289-301, 332-344, 383-395): `should_unmonitor` starts false, is set by
criterion 1 (`config.get('quality_score') is not None` and
`quality_score >= config['quality_score']`) and by criterion 2 (the
format-name loop); the two criteria are OR-ed. -/
def should_unmonitor (cfg : GateConfig) (quality_score : Int)
    (format_name : List String) : Bool :=
  let su1 : Bool :=
    match cfg.quality_score with
    | some threshold => decide (quality_score ≥ threshold)
    | none => false
  su1 || formatNameCheck cfg.format_name format_name

/-- One entry of a `customFormats` array: `cf.get("name")` collapses an
absent or `null` name to `none`. -/
structure CustomFormatEntry where
  name : Option String
deriving Repr, DecidableEq

/-- A quality-info dict (`customFormatInfo` block of a webhook, an
`episodeFile` dict, or a movie-file resource).  Both fields may be absent
(`none`), explicitly `null` (`some none`), or present. -/
structure CustomFormatInfo where
  customFormatScore : Option (Option Int)
  customFormats : Option (Option (List CustomFormatEntry))
deriving Repr, DecidableEq

/-- The list comprehension `[cf["name"] for cf in ... if cf.get("name")]`:
keep only truthy (present, non-null, non-empty) names. -/
def extractNames (cfs : List CustomFormatEntry) : List String :=
  cfs.filterMap fun cf =>
    match cf.name with
    | some s => if s = "" then none else some s
    | none => none

/-- `quality.get('customFormatScore', 0)`: an absent key defaults to `0`;
an explicit `null` yields Python `None` (here the inner `none`), which is
not an error yet — it only blows up if later compared. -/
def pyGetScore (q : CustomFormatInfo) : Option Int :=
  match q.customFormatScore with
  | none => some 0
  | some v => v

/-- Iterating `quality.get('customFormats', [])`: an absent key defaults to
the empty list, an explicit `null` raises `TypeError` when the list
comprehension iterates it. -/
def pyGetFormats (q : CustomFormatInfo) : Except Unit (List String) :=
  match q.customFormats with
  | none => Except.ok []
  | some none => Except.error ()
  | some (some cfs) => Except.ok (extractNames cfs)

/-- Evaluating the gate block on the extracted values: if a threshold is
configured and the score is Python `None`, the comparison
`quality_score >= config['quality_score']` raises `TypeError`; otherwise
the block computes `should_unmonitor` (an absent score was already
defaulted to `0`). -/
def evalGatePy (cfg : GateConfig) (score : Option Int)
    (names : List String) : Except Unit Bool :=
  match cfg.quality_score, score with
  | some _, none => Except.error ()
  | _, _ => Except.ok (should_unmonitor cfg (score.getD 0) names)

/-- The full extract-and-evaluate pipeline on a quality-info block as the
orchestrators obtain it via `.get(key, {})`: an absent block defaults to
the empty dict, an explicit `null` block raises as soon as `.get` is
called on it. -/
def gateFromBlock (cfg : GateConfig)
    (block : Option (Option CustomFormatInfo)) : Except Unit Bool :=
  match block with
  | none => evalGatePy cfg (some 0) []
  | some none => Except.error ()
  | some (some q) =>
    match pyGetFormats q with
    | Except.error e => Except.error e
    | Except.ok names => evalGatePy cfg (pyGetScore q) names

/-- Structural well-formedness of a quality-info block: no field of it is
an explicit `null` (absent fields are fine — they default). -/
def cfiWF (q : CustomFormatInfo) : Bool :=
  q.customFormatScore ≠ some none && q.customFormats ≠ some none

/-- Well-formedness of an optional quality-info block. -/
def blockWF : Option (Option CustomFormatInfo) → Bool
  | none => true
  | some none => false
  | some (some q) => cfiWF q

/-- The defaulted score of a block: absent block or absent key give `0`. -/
def defaultedScore : Option (Option CustomFormatInfo) → Int
  | none => 0
  | some none => 0
  | some (some q) => (pyGetScore q).getD 0

/-- The defaulted custom-format names of a block. -/
def defaultedNames : Option (Option CustomFormatInfo) → List String
  | none => []
  | some none => []
  | some (some q) =>
    match q.customFormats with
    | some (some cfs) => extractNames cfs
    | _ => []

/-- An entry of a Sonarr webhook's `episodes` array; only its `id` is
read (`episode.get('id')`). -/
structure WEpisode where
  id : Option Int
deriving Repr, DecidableEq

/-- A Sonarr webhook payload as `process_sonarr_webhook` reads it:
`eventType`, the `episodes` array (absent defaults to `[]`, explicit
`null` raises when iterated) and the `customFormatInfo` block. -/
structure SonarrWebhookData where
  eventType : Option String
  episodes : Option (Option (List WEpisode))
  customFormatInfo : Option (Option CustomFormatInfo)
deriving Repr, DecidableEq

/-- The `movie` object of a Radarr webhook; only `movie.get('id')` is
read. -/
structure WMovie where
  id : Option Int
deriving Repr, DecidableEq

/-- A Radarr webhook payload as `process_radarr_webhook` reads it. -/
structure RadarrWebhookData where
  eventType : Option String
  movie : Option (Option WMovie)
  customFormatInfo : Option (Option CustomFormatInfo)
deriving Repr, DecidableEq

/-- Observable actions of the webhook orchestrators: one gate evaluation
(with its verdict) and one event per unmonitor call issued through the
client, carrying the call's outcome. -/
inductive WebhookEvent where
  | gateEval (verdict : Bool)
  | unmonitorEpisode (episodeId : Int) (success : Bool)
  | unmonitorMovie (movieId : Int) (success : Bool)
deriving Repr, DecidableEq

/-- Recognizer for gate-evaluation events. -/
def isGateEvalEvent : WebhookEvent → Bool
  | WebhookEvent.gateEval _ => true
  | _ => false

/-- Recognizer for episode-unmonitor call events. -/
def isUnmonitorEpisodeEvent : WebhookEvent → Bool
  | WebhookEvent.unmonitorEpisode _ _ => true
  | _ => false

/-- `webhook_data.get(key, [])` followed by iterating the result: an
absent key defaults to the empty list, an explicit `null` raises
`TypeError` at the `for` loop. -/
def pyGetListD {α : Type} : Option (Option (List α)) → Except Unit (List α)
  | none => Except.ok []
  | some none => Except.error ()
  | some (some l) => Except.ok l

/-- `webhook_data.get(key, {})` followed by `.get` on the result: an
absent key defaults to the given empty dict, an explicit `null` raises
`AttributeError` at the first attribute access. -/
def pyGetDictD {α : Type} (dflt : α) : Option (Option α) → Except Unit α
  | none => Except.ok dflt
  | some none => Except.error ()
  | some (some x) => Except.ok x

/-- The per-episode body of the unmonitor loop in `process_sonarr_webhook`
(lines 351-358): `episode.get('id')` then `if episode_id:` (Python
truthiness — `None` and `0` are both falsy), then one
`client.unmonitor_episode` call whose outcome `env` supplies. -/
def sonarrEpisodeCall (env : Int → Bool) (e : WEpisode) :
    Option WebhookEvent :=
  match e.id with
  | some eid =>
    if eid = 0 then none
    else some (WebhookEvent.unmonitorEpisode eid (env eid))
  | none => none

/-- `process_sonarr_webhook` of `app.py` (lines 316-364): ignore non-
`Download` events; extract quality info and evaluate the gate (a raise is
caught by the surrounding `try`, returning `False`); on a true verdict
issue one unmonitor call per truthy episode id, ignoring per-call
failures; return `True`. -/
def process_sonarr_webhook (env : Int → Bool) (cfg : GateConfig)
    (wd : SonarrWebhookData) : Bool × List WebhookEvent :=
  if wd.eventType ≠ some "Download" then (true, [])
  else
    match gateFromBlock cfg wd.customFormatInfo with
    | Except.error _ => (false, [])
    | Except.ok su =>
      if su then
        match pyGetListD wd.episodes with
        | Except.error _ => (false, [WebhookEvent.gateEval su])
        | Except.ok eps =>
          (true, WebhookEvent.gateEval su :: eps.filterMap (sonarrEpisodeCall env))
      else (true, [WebhookEvent.gateEval su])

/-- `process_radarr_webhook` of `app.py` (lines 366-412): ignore non-
`Download` events; read `movie.get('id')` (raising if `movie` is an
explicit `null`); evaluate the gate; on a true verdict and a truthy movie
id issue one unmonitor call, ignoring its failure; return `True`. -/
def process_radarr_webhook (env : Int → Bool) (cfg : GateConfig)
    (wd : RadarrWebhookData) : Bool × List WebhookEvent :=
  if wd.eventType ≠ some "Download" then (true, [])
  else
    match pyGetDictD (WMovie.mk none) wd.movie with
    | Except.error _ => (false, [])
    | Except.ok movie =>
      match gateFromBlock cfg wd.customFormatInfo with
      | Except.error _ => (false, [])
      | Except.ok su =>
        match movie.id with
        | some mid =>
          if su && mid ≠ 0 then
            (true, [WebhookEvent.gateEval su,
              WebhookEvent.unmonitorMovie mid (env mid)])
          else (true, [WebhookEvent.gateEval su])
        | none => (true, [WebhookEvent.gateEval su])

/-- A series as `process_sonarr_force_unmonitor` reads it: only
`serie.get("id")`. -/
structure SeriesRec where
  id : Option Int
deriving Repr, DecidableEq

/-- An episode resource (with `includeEpisodeFile=true`) as the Sonarr
batch scan reads it: `id`, `monitored` and `hasFile` (both defaulting to
`False`), and the embedded `episodeFile` dict (defaulting to `{}`, an
explicit `null` raising at `.get`). -/
structure EpisodeRec where
  id : Option Int
  monitored : Option Bool
  hasFile : Option Bool
  episodeFile : Option (Option CustomFormatInfo)
deriving Repr, DecidableEq

/-- Remote behaviour the Sonarr batch scan depends on: the result of
`client.get_series()`, of `client.get_episodes(serie_id, ...)` per series
id, and of the one bulk `client.unmonitor_episodes(ids)` call. -/
structure SonarrBatchEnv where
  series : Option (List SeriesRec)
  episodes : Int → Option (List EpisodeRec)
  bulkUnmonitor : List Int → Bool

/-- Observable unmonitor actions of the Sonarr batch scan: the single
bulk call with the accumulated episode ids and its outcome. -/
inductive SonarrBatchEvent where
  | bulkUnmonitor (episodeIds : List Int) (success : Bool)
deriving Repr, DecidableEq

/-- The per-episode body of the Sonarr batch loop (`app.py` lines
229-258): skip on missing id, skip if not monitored, skip if no file,
otherwise extract quality info from `episodeFile` and evaluate the gate;
a matching episode contributes its id to `to_unmonitor`. -/
def episodeGateStep (cfg : GateConfig) (ep : EpisodeRec) :
    Except Unit (Option Int) :=
  match ep.id with
  | none => Except.ok none
  | some episode_id =>
    if !(ep.monitored.getD false) then Except.ok none
    else if !(ep.hasFile.getD false) then Except.ok none
    else
      match gateFromBlock cfg ep.episodeFile with
      | Except.error e => Except.error e
      | Except.ok su => Except.ok (if su then some episode_id else none)

/-- The inner `for episode in client.get_episodes(...)` loop, accumulating
matching episode ids; a raise aborts the whole scan. -/
def collectEpisodes (cfg : GateConfig) :
    List EpisodeRec → Except Unit (List Int)
  | [] => Except.ok []
  | ep :: rest =>
    match episodeGateStep cfg ep with
    | Except.error e => Except.error e
    | Except.ok none => collectEpisodes cfg rest
    | Except.ok (some eid) =>
      match collectEpisodes cfg rest with
      | Except.error e => Except.error e
      | Except.ok ids => Except.ok (eid :: ids)

/-- The outer `for serie in client.get_series()` loop: skip series with a
missing id; a failed `get_episodes` (returning `None`) raises when
iterated, aborting the scan. -/
def collectSeries (cfg : GateConfig) (env : SonarrBatchEnv) :
    List SeriesRec → Except Unit (List Int)
  | [] => Except.ok []
  | s :: rest =>
    match s.id with
    | none => collectSeries cfg env rest
    | some serie_id =>
      match env.episodes serie_id with
      | none => Except.error ()
      | some eps =>
        match collectEpisodes cfg eps with
        | Except.error e => Except.error e
        | Except.ok ids1 =>
          match collectSeries cfg env rest with
          | Except.error e => Except.error e
          | Except.ok ids2 => Except.ok (ids1 ++ ids2)

/-- `process_sonarr_force_unmonitor` of `app.py` (lines 220-266): a failed
`get_series` raises (scan returns `False`); after full enumeration, issue
the single bulk unmonitor call iff `to_unmonitor` is non-empty, returning
that call's result, else return `True`. -/
def process_sonarr_force_unmonitor (env : SonarrBatchEnv)
    (cfg : GateConfig) : Bool × List SonarrBatchEvent :=
  match env.series with
  | none => (false, [])
  | some series =>
    match collectSeries cfg env series with
    | Except.error _ => (false, [])
    | Except.ok to_unmonitor =>
      if 0 < to_unmonitor.length then
        (env.bulkUnmonitor to_unmonitor,
          [SonarrBatchEvent.bulkUnmonitor to_unmonitor
            (env.bulkUnmonitor to_unmonitor)])
      else (true, [])

/-- A movie as `process_radarr_force_unmonitor` reads it: `id`,
`movieFileId` (both checked with `is None`, so a `0` is kept) and
`monitored` (defaulting to `False`). -/
structure MovieRec where
  id : Option Int
  movieFileId : Option Int
  monitored : Option Bool
deriving Repr, DecidableEq

/-- Remote behaviour the Radarr batch scan depends on: `get_movies`,
`get_movie_file` per file id, and each `unmonitor_movie` call's result. -/
structure RadarrBatchEnv where
  movies : Option (List MovieRec)
  movieFile : Int → Option CustomFormatInfo
  unmonitorMovie : Int → Bool

/-- Observable unmonitor actions of the Radarr batch scan: one immediate
per-movie call with its outcome. -/
inductive RadarrBatchEvent where
  | unmonitorMovie (movieId : Int) (success : Bool)
deriving Repr, DecidableEq

/-- The per-movie body of the Radarr batch loop (`app.py` lines 271-307):
skip on missing id or missing `movieFileId`, skip if not monitored, skip
if the movie-file fetch returns `None`; otherwise extract quality info,
evaluate the gate, and on a match issue one unmonitor call immediately,
logging but ignoring its failure. -/
def movieStep (env : RadarrBatchEnv) (cfg : GateConfig) (m : MovieRec) :
    Except Unit (List RadarrBatchEvent) :=
  match m.id with
  | none => Except.ok []
  | some movie_id =>
    match m.movieFileId with
    | none => Except.ok []
    | some movie_file_id =>
      if !(m.monitored.getD false) then Except.ok []
      else
        match env.movieFile movie_file_id with
        | none => Except.ok []
        | some movie_file =>
          match gateFromBlock cfg (some (some movie_file)) with
          | Except.error e => Except.error e
          | Except.ok su =>
            Except.ok (if su then
              [RadarrBatchEvent.unmonitorMovie movie_id
                (env.unmonitorMovie movie_id)]
            else [])

/-- The `for movie in client.get_movies()` loop: events issued so far are
kept even when a later movie's evaluation raises (the raise aborts the
remainder and fails the scan). -/
def radarrLoop (env : RadarrBatchEnv) (cfg : GateConfig) :
    List MovieRec → List RadarrBatchEvent × Bool
  | [] => ([], true)
  | m :: rest =>
    match movieStep env cfg m with
    | Except.error _ => ([], false)
    | Except.ok evs =>
      match radarrLoop env cfg rest with
      | (evs2, ok) => (evs ++ evs2, ok)

/-- `process_radarr_force_unmonitor` of `app.py` (lines 268-314): a failed
`get_movies` raises (scan returns `False`); otherwise the loop runs to
completion and the scan returns `True`, per-movie failures having been
skipped locally. -/
def process_radarr_force_unmonitor (env : RadarrBatchEnv)
    (cfg : GateConfig) : Bool × List RadarrBatchEvent :=
  match env.movies with
  | none => (false, [])
  | some movies =>
    match radarrLoop env cfg movies with
    | (evs, ok) => (ok, evs)

/-- Requests `SonarrRadarrClient` can send through `_make_request`,
identified by method and endpoint shape. -/
inductive ApiRequest where
  | getEpisode (episodeId : Int)
  | putEpisode (episodeId : Int)
  | putEpisodeMonitor (episodeIds : List Int)
  | getMovie (movieId : Int)
  | putMovie (movieId : Int)
  | getSeries
  | getEpisodes (seriesId : Option Int) (customHeaders : List String)
  | getMovies
  | getMovieFile (movieFileId : Int)
deriving Repr, DecidableEq

/-- The body of a `_make_request` response, abstracted to what the client
methods test: Python truthiness, and whether it is a JSON list or dict. -/
structure PyResp where
  isList : Bool
  isDict : Bool
  truthy : Bool
deriving Repr, DecidableEq

/-- Truthiness of a `_make_request` result (`None` is falsy). -/
def pyRespTruthy : Option PyResp → Bool
  | none => false
  | some r => r.truthy

/-- The `isinstance(result, list)` guard of the collection getters. -/
def pyRespAsList : Option PyResp → Option PyResp
  | none => none
  | some r => if r.isList then some r else none

/-- The `isinstance(result, dict)` guard of `get_movie_file`. -/
def pyRespAsDict : Option PyResp → Option PyResp
  | none => none
  | some r => if r.isDict then some r else none

/-- The state `SonarrRadarrClient.__init__` stores: trailing slashes are
stripped from the address and the service type is lower-cased. -/
structure SonarrRadarrClient where
  ip_address : String
  api_token : String
  service_type : String
deriving Repr, DecidableEq

/-- The constructor of `SonarrRadarrClient` (`api_client.py` lines
10-21). -/
def SonarrRadarrClient.make (ip_address api_token service_type : String) :
    SonarrRadarrClient :=
  ⟨ip_address.dropRightWhile (· = '/'), api_token, service_type.toLower⟩

/-- `unmonitor_episode` (`api_client.py` lines 83-110): rejected with
`False` before any request on a non-Sonarr client; otherwise GET the
episode, bail out falsy, PUT it back unmonitored and return the PUT
result's truthiness.  `env` supplies each request's response. -/
def unmonitor_episode (c : SonarrRadarrClient)
    (env : ApiRequest → Option PyResp) (episode_id : Int) :
    Bool × List ApiRequest :=
  if c.service_type ≠ "sonarr" then (false, [])
  else
    match env (ApiRequest.getEpisode episode_id) with
    | none => (false, [ApiRequest.getEpisode episode_id])
    | some ep =>
      if !ep.truthy then (false, [ApiRequest.getEpisode episode_id])
      else
        (pyRespTruthy (env (ApiRequest.putEpisode episode_id)),
          [ApiRequest.getEpisode episode_id,
            ApiRequest.putEpisode episode_id])

/-- `unmonitor_episodes` (`api_client.py` lines 112-140): rejected with
`False` before any request on a non-Sonarr client or an empty id list
(the `isinstance` list check always holds in this typed embedding). -/
def unmonitor_episodes (c : SonarrRadarrClient)
    (env : ApiRequest → Option PyResp) (episode_ids : List Int) :
    Bool × List ApiRequest :=
  if c.service_type ≠ "sonarr" then (false, [])
  else if episode_ids.length = 0 then (false, [])
  else
    (pyRespTruthy (env (ApiRequest.putEpisodeMonitor episode_ids)),
      [ApiRequest.putEpisodeMonitor episode_ids])

/-- `unmonitor_movie` (`api_client.py` lines 142-169): rejected with
`False` before any request on a non-Radarr client; otherwise GET the
movie, bail out falsy, PUT it back unmonitored. -/
def unmonitor_movie (c : SonarrRadarrClient)
    (env : ApiRequest → Option PyResp) (movie_id : Int) :
    Bool × List ApiRequest :=
  if c.service_type ≠ "radarr" then (false, [])
  else
    match env (ApiRequest.getMovie movie_id) with
    | none => (false, [ApiRequest.getMovie movie_id])
    | some mv =>
      if !mv.truthy then (false, [ApiRequest.getMovie movie_id])
      else
        (pyRespTruthy (env (ApiRequest.putMovie movie_id)),
          [ApiRequest.getMovie movie_id, ApiRequest.putMovie movie_id])

/-- `get_episodes` (`api_client.py` lines 171-190): `None` before any
request on a non-Sonarr client; otherwise one GET whose result is kept
only if it is a list. -/
def get_episodes (c : SonarrRadarrClient)
    (env : ApiRequest → Option PyResp) (series_id : Option Int)
    (custom_headers : List String) : Option PyResp × List ApiRequest :=
  if c.service_type ≠ "sonarr" then (none, [])
  else
    (pyRespAsList (env (ApiRequest.getEpisodes series_id custom_headers)),
      [ApiRequest.getEpisodes series_id custom_headers])

/-- `get_movies` (`api_client.py` lines 192-200). -/
def get_movies (c : SonarrRadarrClient)
    (env : ApiRequest → Option PyResp) : Option PyResp × List ApiRequest :=
  if c.service_type ≠ "radarr" then (none, [])
  else (pyRespAsList (env ApiRequest.getMovies), [ApiRequest.getMovies])

/-- `get_movie_file` (`api_client.py` lines 202-212): `None` before any
request on a non-Radarr client or a `None` id; the result is kept only if
it is a dict. -/
def get_movie_file (c : SonarrRadarrClient)
    (env : ApiRequest → Option PyResp) (movie_id : Option Int) :
    Option PyResp × List ApiRequest :=
  if c.service_type ≠ "radarr" then (none, [])
  else
    match movie_id with
    | none => (none, [])
    | some mid =>
      (pyRespAsDict (env (ApiRequest.getMovieFile mid)),
        [ApiRequest.getMovieFile mid])

/-- `get_series` (`api_client.py` lines 214-222). -/
def get_series (c : SonarrRadarrClient)
    (env : ApiRequest → Option PyResp) : Option PyResp × List ApiRequest :=
  if c.service_type ≠ "sonarr" then (none, [])
  else (pyRespAsList (env ApiRequest.getSeries), [ApiRequest.getSeries])

/-- A Python value stored in a configuration record's fields. -/
inductive PyValue where
  | pstr (s : String)
  | pint (n : Int)
  | pnone
deriving Repr, DecidableEq

/-- One stored configuration record of `config_manager.py`, with the
eight keys `add_config` writes. -/
structure StoredConfig where
  id : PyValue
  name : PyValue
  service_type : PyValue
  ip_address : PyValue
  api_token : PyValue
  webhook_token : PyValue
  quality_score : PyValue
  format_name : PyValue
deriving Repr, DecidableEq

/-- The whitelist of `update_config` (`config_manager.py` line 112). -/
def updatableKeys : List String :=
  ["name", "service_type", "ip_address", "api_token", "quality_score",
    "format_name"]

/-- One iteration of `update_config`'s `for key, value in kwargs.items()`
loop: assign the value only when the key is whitelisted. -/
def setConfigKey (c : StoredConfig) (key : String) (v : PyValue) :
    StoredConfig :=
  if key ∈ updatableKeys then
    if key = "name" then { c with name := v }
    else if key = "service_type" then { c with service_type := v }
    else if key = "ip_address" then { c with ip_address := v }
    else if key = "api_token" then { c with api_token := v }
    else if key = "quality_score" then { c with quality_score := v }
    else { c with format_name := v }
  else c

/-- `update_config` (`config_manager.py` lines 108-118) over the configs
dict, modelled as an association list keyed by config id. -/
def update_config (configs : List (String × StoredConfig))
    (config_id : String) (kwargs : List (String × PyValue)) :
    Bool × List (String × StoredConfig) :=
  if (configs.lookup config_id).isSome then
    (true, configs.map fun kv =>
      if kv.1 = config_id then
        (kv.1, kwargs.foldl (fun c p => setConfigKey c p.1 p.2) kv.2)
      else kv)
  else (false, configs)

/-- `regenerate_webhook_token` (`config_manager.py` lines 97-106); the
fresh `uuid4` token is a parameter. -/
def regenerate_webhook_token (configs : List (String × StoredConfig))
    (config_id : String) (new_token : String) :
    Option String × List (String × StoredConfig) :=
  if (configs.lookup config_id).isSome then
    (some new_token, configs.map fun kv =>
      if kv.1 = config_id then
        (kv.1, { kv.2 with webhook_token := PyValue.pstr new_token })
      else kv)
  else (none, configs)

/-- Spec-level characterization (following the spec's words, for
comparison with the source translation): the id an episode contributes to
the Sonarr batch accumulation — present id, monitored, has a file, and
the gate matches its file's quality info. -/
def specEpisodePick (cfg : GateConfig) (ep : EpisodeRec) : Option Int :=
  match ep.id with
  | some eid =>
    if ep.monitored.getD false && ep.hasFile.getD false &&
        should_unmonitor cfg (defaultedScore ep.episodeFile)
          (defaultedNames ep.episodeFile)
    then some eid else none
  | none => none

/-- Spec-level characterization: the ids the Sonarr batch scan
accumulates over the full enumeration of all series and episodes. -/
def specSonarrBatchIds (cfg : GateConfig) (env : SonarrBatchEnv)
    (series : List SeriesRec) : List Int :=
  (series.map fun s =>
    match s.id with
    | some sid => ((env.episodes sid).getD []).filterMap (specEpisodePick cfg)
    | none => []).flatten

/-- Spec-level characterization: the unmonitor calls one movie
contributes to the Radarr batch scan; a movie whose file fetch fails
contributes nothing, independently of the other movies. -/
def specMovieEvents (env : RadarrBatchEnv) (cfg : GateConfig)
    (m : MovieRec) : List RadarrBatchEvent :=
  match m.id, m.movieFileId with
  | some mid, some mfid =>
    if m.monitored.getD false then
      match env.movieFile mfid with
      | some mf =>
        if should_unmonitor cfg (defaultedScore (some (some mf)))
            (defaultedNames (some (some mf)))
        then [RadarrBatchEvent.unmonitorMovie mid (env.unmonitorMovie mid)]
        else []
      | none => []
    else []
  | _, _ => []

/-- Spec-level characterization: all unmonitor calls of the Radarr batch
scan, one independent contribution per movie. -/
def specRadarrBatchEvents (env : RadarrBatchEnv) (cfg : GateConfig)
    (movies : List MovieRec) : List RadarrBatchEvent :=
  (movies.map (specMovieEvents env cfg)).flatten

theorem formatLoop_eq_any (sub : String) (l : List String) :
    formatLoop sub l = l.any (fun cf => pyInStr sub.toLower cf.toLower) := by
  induction l with
  | nil => rfl
  | cons cf rest ih =>
    by_cases h : pyInStr sub.toLower cf.toLower = true <;>
      simp [formatLoop, h, ih]

theorem formatNameCheck_eq_true_iff (cfg_fn : Option String)
    (names : List String) :
    formatNameCheck cfg_fn names = true ↔
      ∃ sub, cfg_fn = some sub ∧ sub ≠ "" ∧
        ∃ nm ∈ names, pyInStr sub.toLower nm.toLower = true := by
  cases cfg_fn with
  | none => simp [formatNameCheck]
  | some sub =>
    by_cases hsub : sub = ""
    · simp [formatNameCheck, hsub]
    · cases names with
      | nil => simp [formatNameCheck, hsub]
      | cons nm rest =>
        simp [formatNameCheck, hsub, formatLoop_eq_any, List.any_eq_true]

theorem gateFromBlock_wf (cfg : GateConfig)
    (block : Option (Option CustomFormatInfo)) (hwf : blockWF block = true) :
    gateFromBlock cfg block =
      Except.ok (should_unmonitor cfg (defaultedScore block)
        (defaultedNames block)) := by
  match block with
  | none =>
    simp [gateFromBlock, evalGatePy, defaultedScore, defaultedNames]
  | some none => simp [blockWF] at hwf
  | some (some q) =>
    simp only [blockWF, cfiWF, Bool.and_eq_true, decide_eq_true_iff] at hwf
    obtain ⟨hs, hf⟩ := hwf
    match hq : q.customFormatScore, hqf : q.customFormats with
    | none, none =>
      simp [gateFromBlock, pyGetFormats, hqf, evalGatePy, pyGetScore, hq,
        defaultedScore, defaultedNames]
    | none, some (some cfs) =>
      simp [gateFromBlock, pyGetFormats, hqf, evalGatePy, pyGetScore, hq,
        defaultedScore, defaultedNames]
    | some (some v), none =>
      simp [gateFromBlock, pyGetFormats, hqf, evalGatePy, pyGetScore, hq,
        defaultedScore, defaultedNames]
    | some (some v), some (some cfs) =>
      simp [gateFromBlock, pyGetFormats, hqf, evalGatePy, pyGetScore, hq,
        defaultedScore, defaultedNames]
    | some none, _ => simp [hq] at hs
    | _, some none => simp [hqf] at hf

/-- C1: the quality-gate verdict is the OR of the two criteria — it is true
iff the configured threshold is set and the score reaches it, or the
configured format-name substring is set, non-empty, and some custom format
name contains it case-insensitively; with neither criterion configured or
matching, the verdict is false. -/
theorem c1_gate_is_or_of_criteria (cfg : GateConfig) (score : Int)
    (names : List String) :
    should_unmonitor cfg score names = true ↔
      ((∃ t, cfg.quality_score = some t ∧ t ≤ score) ∨
        (∃ sub, cfg.format_name = some sub ∧ sub ≠ "" ∧
          ∃ nm ∈ names, pyInStr sub.toLower nm.toLower = true)) := by
  cases hq : cfg.quality_score with
  | none =>
    simp [should_unmonitor, hq, formatNameCheck_eq_true_iff]
  | some t =>
    simp only [should_unmonitor, hq, Bool.or_eq_true, decide_eq_true_iff,
      formatNameCheck_eq_true_iff]
    constructor
    · rintro (h | h)
      · exact Or.inl ⟨t, rfl, h⟩
      · exact Or.inr h
    · rintro (⟨t', ht', h⟩ | h)
      · exact Or.inl (by injection ht' with h'; omega)
      · exact Or.inr h

/-- C3: the format criterion is case-insensitive substring containment, not
exact equality: for a configured non-empty substring it holds iff the
lowercase form of some custom-format name contains the lowercase form of
the substring as a contiguous substring. -/
theorem c3_format_match_is_ci_containment (sub : String) (names : List String)
    (hsub : sub ≠ "") :
    formatNameCheck (some sub) names = true ↔
      ∃ nm ∈ names, sub.toLower.data <:+: nm.toLower.data := by
  rw [formatNameCheck_eq_true_iff]
  constructor
  · rintro ⟨sub', hsub', _, nm, hnm, hin⟩
    injection hsub' with h
    subst h
    exact ⟨nm, hnm, of_decide_eq_true hin⟩
  · rintro ⟨nm, hnm, hin⟩
    exact ⟨sub, rfl, hsub, nm, hnm, decide_eq_true hin⟩

/-- Witness for C3 at the spec's own example: the configured substring
"HDR" matches the format name "HDR10+" by containment even though the two
strings are not equal. -/
theorem c3_witness :
    ("HDR" : String) ≠ "" ∧
      (formatNameCheck (some "HDR") ["HDR10+"] = true ↔
        ∃ nm ∈ (["HDR10+"] : List String),
          ("HDR" : String).toLower.data <:+: nm.toLower.data) :=
  ⟨by decide, c3_format_match_is_ci_containment "HDR" ["HDR10+"] (by decide)⟩

theorem formatNameCheck_empty (cfg_fn : Option String) :
    formatNameCheck cfg_fn [] = false := by
  cases cfg_fn with
  | none => rfl
  | some sub => by_cases h : sub = "" <;> simp [formatNameCheck, h]

/-- C2 (amended): the quality-info extraction and gate evaluation are
total provided no quality field is an explicit `null`: on such inputs the
pipeline returns the pure gate applied to the defaulted values (absent
score treated as `0`, absent custom formats as `[]`); in particular a
wholly missing quality block with positively-configured threshold yields
a false verdict rather than an error. -/
theorem c2_gate_total_without_explicit_nulls (cfg : GateConfig)
    (block : Option (Option CustomFormatInfo)) (hwf : blockWF block = true) :
    gateFromBlock cfg block =
      Except.ok (should_unmonitor cfg (defaultedScore block)
        (defaultedNames block)) ∧
    (block = none → (∀ t, cfg.quality_score = some t → 0 < t) →
      gateFromBlock cfg block = Except.ok false) := by
  refine ⟨gateFromBlock_wf cfg block hwf, ?_⟩
  rintro rfl hpos
  rw [gateFromBlock_wf cfg none hwf]
  have hfalse : should_unmonitor cfg 0 [] = false := by
    cases hq : cfg.quality_score with
    | none => simp [should_unmonitor, hq, formatNameCheck_empty]
    | some t =>
      have ht := hpos t hq
      simp [should_unmonitor, hq, formatNameCheck_empty,
        decide_eq_false_iff_not]
      omega
  simp only [defaultedScore, defaultedNames]
  exact congrArg (fun b => (Except.ok b : Except Unit Bool)) hfalse

/-- Witness for C2's amended statement at a concrete well-formed input. -/
theorem c2_witness :
    blockWF (some (some ⟨none, some (some [⟨some "HDR10+"⟩])⟩)) = true ∧
    gateFromBlock ⟨some 80, some "HDR"⟩
        (some (some ⟨none, some (some [⟨some "HDR10+"⟩])⟩)) =
      Except.ok (should_unmonitor ⟨some 80, some "HDR"⟩
        (defaultedScore (some (some ⟨none, some (some [⟨some "HDR10+"⟩])⟩)))
        (defaultedNames (some (some ⟨none, some (some [⟨some "HDR10+"⟩])⟩)))) :=
  ⟨by decide,
    (c2_gate_total_without_explicit_nulls ⟨some 80, some "HDR"⟩
      (some (some ⟨none, some (some [⟨some "HDR10+"⟩])⟩)) (by decide)).1⟩

/-- Counterexample to C2 as stated: with a configured threshold of `80`
and a payload whose `customFormatScore` is an explicit `null`, the
comparison raises (`TypeError` in the source), and the Sonarr webhook
orchestrator reports failure instead of a false verdict. -/
theorem c2_counterexample_null_score_raises :
    gateFromBlock ⟨some 80, none⟩ (some (some ⟨some none, none⟩)) =
      Except.error () ∧
    process_sonarr_webhook (fun _ => true) ⟨some 80, none⟩
        ⟨some "Download", none, some (some ⟨some none, none⟩)⟩ =
      (false, []) := by
  exact ⟨rfl, by decide⟩

/-- C4: both webhook orchestrators acknowledge any payload whose event
type is not `'Download'` with success and an empty call trace. -/
theorem c4_non_download_is_noop :
    (∀ (env : Int → Bool) (cfg : GateConfig) (wd : SonarrWebhookData),
        wd.eventType ≠ some "Download" →
        process_sonarr_webhook env cfg wd = (true, [])) ∧
    (∀ (env : Int → Bool) (cfg : GateConfig) (wd : RadarrWebhookData),
        wd.eventType ≠ some "Download" →
        process_radarr_webhook env cfg wd = (true, [])) := by
  constructor
  · intro env cfg wd h
    simp [process_sonarr_webhook, h]
  · intro env cfg wd h
    simp [process_radarr_webhook, h]

/-- Witness for C4 at a concrete `Grab` payload, for both services. -/
theorem c4_witness :
    ((some "Grab" : Option String) ≠ some "Download") ∧
    process_sonarr_webhook (fun _ => true) ⟨some 80, none⟩
      ⟨some "Grab", none, none⟩ = (true, []) ∧
    process_radarr_webhook (fun _ => true) ⟨some 80, none⟩
      ⟨some "Grab", none, none⟩ = (true, []) :=
  ⟨by decide,
    c4_non_download_is_noop.1 (fun _ => true) ⟨some 80, none⟩
      ⟨some "Grab", none, none⟩ (by decide),
    c4_non_download_is_noop.2 (fun _ => true) ⟨some 80, none⟩
      ⟨some "Grab", none, none⟩ (by decide)⟩

theorem sonarrEpisodeCall_not_gateEval (env : Int → Bool) (e : WEpisode)
    (ev : WebhookEvent) (h : sonarrEpisodeCall env e = some ev) :
    isGateEvalEvent ev = false := by
  unfold sonarrEpisodeCall at h
  match he : e.id with
  | none => rw [he] at h; exact absurd h (by simp)
  | some eid =>
    rw [he] at h
    by_cases h0 : eid = 0
    · simp [h0] at h
    · simp [h0] at h
      rw [← h]
      rfl

/-- C5 (amended): for a Sonarr `Download` webhook that parses and whose
quality info passes the gate, the orchestrator evaluates the gate exactly
once and issues one unmonitor call per listed episode whose id is present
and non-zero (Python truthiness — the source's `if episode_id:` also
skips an id of `0`); individual call failures do not abort the remaining
calls, and the orchestrator reports success. -/
theorem c5_download_gate_pass_unmonitors_each (env : Int → Bool)
    (cfg : GateConfig) (wd : SonarrWebhookData) (eps : List WEpisode)
    (hev : wd.eventType = some "Download")
    (hgate : gateFromBlock cfg wd.customFormatInfo = Except.ok true)
    (heps : pyGetListD wd.episodes = Except.ok eps) :
    process_sonarr_webhook env cfg wd =
      (true, WebhookEvent.gateEval true ::
        eps.filterMap (sonarrEpisodeCall env)) ∧
    (process_sonarr_webhook env cfg wd).2.countP isGateEvalEvent = 1 ∧
    (∀ e ∈ eps, ∀ eid, e.id = some eid → eid ≠ 0 →
      WebhookEvent.unmonitorEpisode eid (env eid) ∈
        (process_sonarr_webhook env cfg wd).2) ∧
    (process_sonarr_webhook env cfg wd).1 = true := by
  have hproc : process_sonarr_webhook env cfg wd =
      (true, WebhookEvent.gateEval true ::
        eps.filterMap (sonarrEpisodeCall env)) := by
    simp [process_sonarr_webhook, hev, hgate, heps]
  refine ⟨hproc, ?_, ?_, by rw [hproc]⟩
  · rw [hproc]
    simp only [List.countP_cons]
    have hz : (eps.filterMap (sonarrEpisodeCall env)).countP isGateEvalEvent
        = 0 := by
      rw [List.countP_eq_zero]
      intro ev hev'
      obtain ⟨e, _, hcall⟩ := List.mem_filterMap.mp hev'
      simp [sonarrEpisodeCall_not_gateEval env e ev hcall]
    rw [hz]
    rfl
  · intro e he eid hid h0
    rw [hproc]
    refine List.mem_cons_of_mem _ (List.mem_filterMap.mpr ⟨e, he, ?_⟩)
    simp [sonarrEpisodeCall, hid, h0]

/-- Witness for C5's amended statement at the spec's scenario
(threshold 80, webhook score 85, two listed episodes, the second call
failing): both episodes receive their call and the result is success. -/
theorem c5_witness :
    (⟨some "Download",
        some (some [WEpisode.mk (some 101), WEpisode.mk (some 102)]),
        some (some ⟨some (some 85), none⟩)⟩ :
      SonarrWebhookData).eventType = some "Download" ∧
    gateFromBlock ⟨some 80, none⟩
      (some (some ⟨some (some 85), none⟩)) = Except.ok true ∧
    process_sonarr_webhook (fun eid => decide (eid = 101)) ⟨some 80, none⟩
        ⟨some "Download",
          some (some [WEpisode.mk (some 101), WEpisode.mk (some 102)]),
          some (some ⟨some (some 85), none⟩)⟩ =
      (true, [WebhookEvent.gateEval true,
        WebhookEvent.unmonitorEpisode 101 true,
        WebhookEvent.unmonitorEpisode 102 false]) :=
  ⟨rfl, rfl,
    (c5_download_gate_pass_unmonitors_each (fun eid => decide (eid = 101))
      ⟨some 80, none⟩
      ⟨some "Download",
        some (some [WEpisode.mk (some 101), WEpisode.mk (some 102)]),
        some (some ⟨some (some 85), none⟩)⟩
      [WEpisode.mk (some 101), WEpisode.mk (some 102)]
      rfl rfl rfl).1⟩

/-- Counterexample to C5 as stated: an episode id of `0` is present in
the payload, the gate passes (score 85 against threshold 80), yet no
unmonitor call is issued for it — the source's `if episode_id:` treats
`0` like a missing id. -/
theorem c5_counterexample_zero_id_skipped :
    (([WEpisode.mk (some 0)] : List WEpisode).map WEpisode.id
      = [some 0]) ∧
    process_sonarr_webhook (fun _ => true) ⟨some 80, none⟩
        ⟨some "Download", some (some [WEpisode.mk (some 0)]),
          some (some ⟨some (some 85), none⟩)⟩ =
      (true, [WebhookEvent.gateEval true]) :=
  ⟨rfl, by decide⟩

theorem getD_false_eq_true {o : Option Bool} (h : o.getD false = true) :
    o = some true := by
  cases o with
  | none => cases h
  | some b => cases b with
    | false => cases h
    | true => rfl

theorem episodeGateStep_wf (cfg : GateConfig) (ep : EpisodeRec)
    (hwf : blockWF ep.episodeFile = true) :
    episodeGateStep cfg ep = Except.ok (specEpisodePick cfg ep) := by
  match hid : ep.id with
  | none => simp [episodeGateStep, specEpisodePick, hid]
  | some eid =>
    simp only [episodeGateStep, specEpisodePick, hid,
      gateFromBlock_wf cfg ep.episodeFile hwf]
    by_cases hm : ep.monitored.getD false <;>
      by_cases hf : ep.hasFile.getD false <;>
        simp [hm, hf]

theorem collectEpisodes_wf (cfg : GateConfig) (eps : List EpisodeRec)
    (hwf : ∀ ep ∈ eps, blockWF ep.episodeFile = true) :
    collectEpisodes cfg eps =
      Except.ok (eps.filterMap (specEpisodePick cfg)) := by
  induction eps with
  | nil => rfl
  | cons ep rest ih =>
    have hep := episodeGateStep_wf cfg ep (hwf ep (List.mem_cons_self ep rest))
    have hrest := ih fun e he => hwf e (List.mem_cons_of_mem _ he)
    match hpick : specEpisodePick cfg ep with
    | none =>
      rw [hpick] at hep
      simp [collectEpisodes, hep, hrest, List.filterMap_cons, hpick]
    | some eid =>
      rw [hpick] at hep
      simp [collectEpisodes, hep, hrest, List.filterMap_cons, hpick]

theorem collectSeries_wf (cfg : GateConfig) (env : SonarrBatchEnv)
    (series : List SeriesRec)
    (hwf : ∀ s ∈ series, ∀ sid, s.id = some sid →
      ∃ eps, env.episodes sid = some eps ∧
        ∀ ep ∈ eps, blockWF ep.episodeFile = true) :
    collectSeries cfg env series =
      Except.ok (specSonarrBatchIds cfg env series) := by
  induction series with
  | nil => rfl
  | cons s rest ih =>
    have hrest := ih fun s' h' => hwf s' (List.mem_cons_of_mem _ h')
    match hid : s.id with
    | none =>
      simp [collectSeries, hid, hrest, specSonarrBatchIds]
    | some sid =>
      obtain ⟨eps, heps, hepswf⟩ := hwf s (List.mem_cons_self s rest) sid hid
      simp [collectSeries, hid, heps, collectEpisodes_wf cfg eps hepswf,
        hrest, specSonarrBatchIds]

theorem specEpisodePick_source (cfg : GateConfig) (ep : EpisodeRec)
    (eid : Int) (h : specEpisodePick cfg ep = some eid) :
    ep.id = some eid ∧ ep.monitored = some true ∧ ep.hasFile = some true := by
  match hid : ep.id with
  | none => simp [specEpisodePick, hid] at h
  | some eid' =>
    simp only [specEpisodePick, hid] at h
    split at h
    · next hc =>
      injection h with h'
      subst h'
      simp only [Bool.and_eq_true] at hc
      exact ⟨rfl, getD_false_eq_true hc.1.1, getD_false_eq_true hc.1.2⟩
    · cases h

/-- C6: in the Sonarr batch scan, episodes that are unmonitored or have no
file are skipped; gate-matching episode ids are accumulated over the full
enumeration, and afterwards exactly one bulk unmonitor call is issued iff
the accumulated collection is non-empty — with an empty collection no
call is made and the scan reports success. -/
theorem c6_sonarr_batch_single_bulk_call (cfg : GateConfig)
    (env : SonarrBatchEnv) (series : List SeriesRec)
    (hser : env.series = some series)
    (hwf : ∀ s ∈ series, ∀ sid, s.id = some sid →
      ∃ eps, env.episodes sid = some eps ∧
        ∀ ep ∈ eps, blockWF ep.episodeFile = true) :
    ((process_sonarr_force_unmonitor env cfg).2 =
      if specSonarrBatchIds cfg env series = [] then []
      else [SonarrBatchEvent.bulkUnmonitor (specSonarrBatchIds cfg env series)
        (env.bulkUnmonitor (specSonarrBatchIds cfg env series))]) ∧
    (specSonarrBatchIds cfg env series = [] →
      process_sonarr_force_unmonitor env cfg = (true, [])) ∧
    (∀ eid ∈ specSonarrBatchIds cfg env series,
      ∃ s ∈ series, ∃ sid, s.id = some sid ∧
        ∃ eps, env.episodes sid = some eps ∧
          ∃ ep ∈ eps, ep.id = some eid ∧ ep.monitored = some true ∧
            ep.hasFile = some true) := by
  have hcol := collectSeries_wf cfg env series hwf
  refine ⟨?_, ?_, ?_⟩
  · by_cases hnil : specSonarrBatchIds cfg env series = []
    · simp [process_sonarr_force_unmonitor, hser, hcol, hnil]
    · have hlen : 0 < (specSonarrBatchIds cfg env series).length :=
        List.length_pos.mpr hnil
      simp [process_sonarr_force_unmonitor, hser, hcol, hnil, hlen]
  · intro hnil
    simp [process_sonarr_force_unmonitor, hser, hcol, hnil]
  · intro eid hmem
    simp only [specSonarrBatchIds] at hmem
    obtain ⟨l, hl, hm⟩ := List.mem_flatten.mp hmem
    obtain ⟨s, hs, rfl⟩ := List.mem_map.mp hl
    match hid : s.id with
    | none => rw [hid] at hm; cases hm
    | some sid =>
      rw [hid] at hm
      obtain ⟨eps, heps, _⟩ := hwf s hs sid hid
      simp only [heps, Option.getD_some] at hm
      obtain ⟨ep, hep, hpick⟩ := List.mem_filterMap.mp hm
      obtain ⟨hid', hmon, hfile⟩ := specEpisodePick_source cfg ep eid hpick
      exact ⟨s, hs, sid, hid, eps, heps, ep, hep, hid', hmon, hfile⟩

/-- Witness for C6 at the spec's scenario: two series with one episode
each, episode 10 has no file (skipped), episode 11 has a file with score
90 against threshold 80 — exactly one bulk call with ids `[11]`. -/
theorem c6_witness :
    (process_sonarr_force_unmonitor
      ⟨some [⟨some 1⟩, ⟨some 2⟩],
        fun sid =>
          if sid = 1 then
            some [⟨some 10, some true, some false, none⟩]
          else if sid = 2 then
            some [⟨some 11, some true, some true,
              some (some ⟨some (some 90), none⟩)⟩]
          else none,
        fun _ => true⟩
      ⟨some 80, none⟩).2 =
      [SonarrBatchEvent.bulkUnmonitor [11] true] := by
  have h := (c6_sonarr_batch_single_bulk_call ⟨some 80, none⟩
    ⟨some [⟨some 1⟩, ⟨some 2⟩],
      fun sid =>
        if sid = 1 then
          some [⟨some 10, some true, some false, none⟩]
        else if sid = 2 then
          some [⟨some 11, some true, some true,
            some (some ⟨some (some 90), none⟩)⟩]
        else none,
      fun _ => true⟩
    [⟨some 1⟩, ⟨some 2⟩] rfl ?_).1
  · exact h.trans (by decide)
  · intro s hs sid hsid
    simp only [List.mem_cons, List.not_mem_nil, or_false] at hs
    rcases hs with rfl | rfl
    · simp only at hsid
      injection hsid with h'
      subst h'
      exact ⟨_, rfl, by
        intro ep hep
        simp only [List.mem_singleton] at hep
        subst hep
        rfl⟩
    · simp only at hsid
      injection hsid with h'
      subst h'
      exact ⟨_, rfl, by
        intro ep hep
        simp only [List.mem_singleton] at hep
        subst hep
        rfl⟩

theorem movieStep_wf (env : RadarrBatchEnv) (cfg : GateConfig)
    (m : MovieRec)
    (hwf : ∀ mfid, m.movieFileId = some mfid →
      ∀ mf, env.movieFile mfid = some mf → cfiWF mf = true) :
    movieStep env cfg m = Except.ok (specMovieEvents env cfg m) := by
  match hid : m.id with
  | none => simp [movieStep, specMovieEvents, hid]
  | some mid =>
    match hfid : m.movieFileId with
    | none => simp [movieStep, specMovieEvents, hid, hfid]
    | some mfid =>
      by_cases hm : m.monitored.getD false
      · match hmf : env.movieFile mfid with
        | none => simp [movieStep, specMovieEvents, hid, hfid, hm, hmf]
        | some mf =>
          have hcfi : blockWF (some (some mf)) = true := by
            simpa [blockWF] using hwf mfid hfid mf hmf
          simp [movieStep, specMovieEvents, hid, hfid, hm, hmf,
            gateFromBlock_wf cfg (some (some mf)) hcfi]
      · simp [movieStep, specMovieEvents, hid, hfid, hm]

theorem radarrLoop_wf (env : RadarrBatchEnv) (cfg : GateConfig)
    (movies : List MovieRec)
    (hwf : ∀ m ∈ movies, ∀ mfid, m.movieFileId = some mfid →
      ∀ mf, env.movieFile mfid = some mf → cfiWF mf = true) :
    radarrLoop env cfg movies =
      (specRadarrBatchEvents env cfg movies, true) := by
  induction movies with
  | nil => rfl
  | cons m rest ih =>
    have hstep := movieStep_wf env cfg m
      (fun mfid h mf h2 => hwf m (List.mem_cons_self m rest) mfid h mf h2)
    have hrest := ih fun m' h' => hwf m' (List.mem_cons_of_mem _ h')
    simp [radarrLoop, hstep, hrest, specRadarrBatchEvents]

theorem specMovieEvents_fetch_failed (env : RadarrBatchEnv)
    (cfg : GateConfig) (m : MovieRec) (mfid : Int)
    (hfid : m.movieFileId = some mfid) (hmf : env.movieFile mfid = none) :
    specMovieEvents env cfg m = [] := by
  match hid : m.id with
  | none => simp [specMovieEvents, hid]
  | some mid =>
    by_cases hm : m.monitored.getD false <;>
      simp [specMovieEvents, hid, hfid, hm, hmf]

/-- C7: in the Radarr batch scan (under well-formed quality data), a
failed movie-file fetch only skips that movie — every movie contributes
its events independently and the scan reports success; the scan reports
failure exactly when the whole-scan enumeration (`get_movies`) fails. -/
theorem c7_radarr_batch_partial_failure (cfg : GateConfig)
    (env : RadarrBatchEnv)
    (hwf : ∀ ms, env.movies = some ms → ∀ m ∈ ms,
      ∀ mfid, m.movieFileId = some mfid →
        ∀ mf, env.movieFile mfid = some mf → cfiWF mf = true) :
    (∀ ms, env.movies = some ms →
      process_radarr_force_unmonitor env cfg =
        (true, specRadarrBatchEvents env cfg ms) ∧
      (∀ m ∈ ms, ∀ mfid, m.movieFileId = some mfid →
        env.movieFile mfid = none → specMovieEvents env cfg m = [])) ∧
    (env.movies = none →
      process_radarr_force_unmonitor env cfg = (false, [])) := by
  constructor
  · intro ms hms
    constructor
    · simp [process_radarr_force_unmonitor, hms,
        radarrLoop_wf env cfg ms (hwf ms hms)]
    · intro m _ mfid hfid hmf
      exact specMovieEvents_fetch_failed env cfg m mfid hfid hmf
  · intro hnone
    simp [process_radarr_force_unmonitor, hnone]

/-- Witness for C7 at the spec's scenario: the file fetch fails for movie
1 (file id 5), movie 2 (file id 6, score 90 against threshold 80) is
still evaluated and unmonitored, and the scan reports success. -/
theorem c7_witness :
    process_radarr_force_unmonitor
      ⟨some [⟨some 1, some 5, some true⟩, ⟨some 2, some 6, some true⟩],
        fun mfid =>
          if mfid = 6 then some ⟨some (some 90), none⟩ else none,
        fun _ => true⟩
      ⟨some 80, none⟩ =
      (true, [RadarrBatchEvent.unmonitorMovie 2 true]) := by
  have h := (c7_radarr_batch_partial_failure ⟨some 80, none⟩
    ⟨some [⟨some 1, some 5, some true⟩, ⟨some 2, some 6, some true⟩],
      fun mfid =>
        if mfid = 6 then some ⟨some (some 90), none⟩ else none,
      fun _ => true⟩ ?_).1
    [⟨some 1, some 5, some true⟩, ⟨some 2, some 6, some true⟩] rfl
  · exact h.1.trans (by decide)
  · intro ms hms m hm mfid hfid mf hmf
    injection hms with h'
    subst h'
    by_cases h6 : mfid = 6
    · subst h6
      simp only [if_pos rfl] at hmf
      injection hmf with h''
      subst h''
      decide
    · simp only [if_neg h6] at hmf
      cases hmf

theorem episodeGateStep_some (cfg : GateConfig) (ep : EpisodeRec)
    (eid : Int) (h : episodeGateStep cfg ep = Except.ok (some eid)) :
    ep.id = some eid ∧ ep.monitored = some true ∧ ep.hasFile = some true := by
  match hid : ep.id with
  | none => simp [episodeGateStep, hid] at h
  | some eid' =>
    simp only [episodeGateStep, hid] at h
    by_cases hm : ep.monitored.getD false
    · by_cases hf : ep.hasFile.getD false
      · simp only [hm, hf, Bool.not_true, Bool.false_eq_true, if_false] at h
        split at h
        · cases h
        · next su _ =>
          injection h with h'
          by_cases hsu : su = true
          · rw [hsu, if_pos rfl] at h'
            exact ⟨h', getD_false_eq_true hm, getD_false_eq_true hf⟩
          · rw [if_neg hsu] at h'
            cases h'
      · simp [hm, hf] at h
    · simp [hm] at h

theorem collectEpisodes_monitored (cfg : GateConfig) (eps : List EpisodeRec)
    (ids : List Int) (h : collectEpisodes cfg eps = Except.ok ids) :
    ∀ eid ∈ ids, ∃ ep ∈ eps, ep.id = some eid ∧ ep.monitored = some true := by
  induction eps generalizing ids with
  | nil =>
    intro eid he
    simp only [collectEpisodes] at h
    injection h with h'
    subst h'
    cases he
  | cons ep rest ih =>
    intro eid he
    simp only [collectEpisodes] at h
    split at h
    · cases h
    · obtain ⟨ep', hep', hrest⟩ := ih ids h eid he
      exact ⟨ep', List.mem_cons_of_mem _ hep', hrest⟩
    · next eid' hstep =>
      split at h
      · cases h
      · next ids2 hrest2 =>
        injection h with h'
        subst h'
        rcases List.mem_cons.mp he with rfl | htail
        · obtain ⟨h1, h2, _⟩ := episodeGateStep_some cfg ep eid hstep
          exact ⟨ep, List.mem_cons_self ep rest, h1, h2⟩
        · obtain ⟨ep', hep', hrest⟩ := ih ids2 hrest2 eid htail
          exact ⟨ep', List.mem_cons_of_mem _ hep', hrest⟩

theorem collectSeries_monitored (cfg : GateConfig) (env : SonarrBatchEnv)
    (series : List SeriesRec) (ids : List Int)
    (h : collectSeries cfg env series = Except.ok ids) :
    ∀ eid ∈ ids, ∃ s ∈ series, ∃ sid, s.id = some sid ∧
      ∃ eps, env.episodes sid = some eps ∧
        ∃ ep ∈ eps, ep.id = some eid ∧ ep.monitored = some true := by
  induction series generalizing ids with
  | nil =>
    intro eid he
    simp only [collectSeries] at h
    injection h with h'
    subst h'
    cases he
  | cons s rest ih =>
    intro eid he
    simp only [collectSeries] at h
    split at h
    · obtain ⟨s', hs', hrest⟩ := ih ids h eid he
      exact ⟨s', List.mem_cons_of_mem _ hs', hrest⟩
    · next sid hsid =>
      split at h
      · cases h
      · next eps heps =>
        split at h
        · cases h
        · next ids1 hcol1 =>
          split at h
          · cases h
          · next ids2 hcol2 =>
            injection h with h'
            subst h'
            rcases List.mem_append.mp he with hleft | hright
            · obtain ⟨ep, hep, h1, h2⟩ :=
                collectEpisodes_monitored cfg eps ids1 hcol1 eid hleft
              exact ⟨s, List.mem_cons_self s rest, sid, hsid, eps, heps,
                ep, hep, h1, h2⟩
            · obtain ⟨s', hs', hrest⟩ := ih ids2 hcol2 eid hright
              exact ⟨s', List.mem_cons_of_mem _ hs', hrest⟩

theorem movieStep_monitored (env : RadarrBatchEnv) (cfg : GateConfig)
    (m : MovieRec) (evs : List RadarrBatchEvent)
    (h : movieStep env cfg m = Except.ok evs) (mid : Int) (b : Bool)
    (hmem : RadarrBatchEvent.unmonitorMovie mid b ∈ evs) :
    m.id = some mid ∧ m.monitored = some true := by
  match hid : m.id with
  | none =>
    simp only [movieStep, hid] at h
    injection h with h'
    subst h'
    cases hmem
  | some mid' =>
    simp only [movieStep, hid] at h
    split at h
    · injection h with h'
      subst h'
      cases hmem
    · next mfid hfid =>
      by_cases hm : m.monitored.getD false
      · simp only [hm, Bool.not_true, Bool.false_eq_true, if_false] at h
        split at h
        · injection h with h'
          subst h'
          cases hmem
        · next mf hmf =>
          split at h
          · cases h
          · next su hgate =>
            injection h with h'
            subst h'
            by_cases hsu : su = true
            · rw [hsu, if_pos rfl] at hmem
              rcases List.mem_singleton.mp hmem with heq
              injection heq with h1 h2
              exact ⟨by rw [h1], getD_false_eq_true hm⟩
            · rw [if_neg hsu] at hmem
              cases hmem
      · simp only [hm, Bool.not_false, if_true] at h
        injection h with h'
        subst h'
        cases hmem

theorem radarrLoop_monitored (env : RadarrBatchEnv) (cfg : GateConfig)
    (movies : List MovieRec) (mid : Int) (b : Bool)
    (hmem : RadarrBatchEvent.unmonitorMovie mid b ∈
      (radarrLoop env cfg movies).1) :
    ∃ m ∈ movies, m.id = some mid ∧ m.monitored = some true := by
  induction movies with
  | nil => cases hmem
  | cons m rest ih =>
    simp only [radarrLoop] at hmem
    split at hmem
    · cases hmem
    · next evs hstep =>
      rcases List.mem_append.mp hmem with hleft | hright
      · obtain ⟨h1, h2⟩ := movieStep_monitored env cfg m evs hstep mid b hleft
        exact ⟨m, List.mem_cons_self m rest, h1, h2⟩
      · obtain ⟨m', hm', hrest⟩ := ih hright
        exact ⟨m', List.mem_cons_of_mem _ hm', hrest⟩

/-- C8: the gate-and-unmonitor flow is idempotent on already-unmonitored
items — in both batch scans every issued unmonitor target belongs to an
item whose `monitored` flag is `true`, so a second pass over items
unmonitored by a first pass issues no call for them (items with a false
or absent flag are skipped before gate evaluation). -/
theorem c8_unmonitored_items_never_targeted :
    (∀ (env : SonarrBatchEnv) (cfg : GateConfig) (ids : List Int) (b : Bool),
      SonarrBatchEvent.bulkUnmonitor ids b ∈
          (process_sonarr_force_unmonitor env cfg).2 →
        ∀ eid ∈ ids, ∃ series, env.series = some series ∧
          ∃ s ∈ series, ∃ sid, s.id = some sid ∧
            ∃ eps, env.episodes sid = some eps ∧
              ∃ ep ∈ eps, ep.id = some eid ∧ ep.monitored = some true) ∧
    (∀ (env : RadarrBatchEnv) (cfg : GateConfig) (mid : Int) (b : Bool),
      RadarrBatchEvent.unmonitorMovie mid b ∈
          (process_radarr_force_unmonitor env cfg).2 →
        ∃ ms, env.movies = some ms ∧
          ∃ m ∈ ms, m.id = some mid ∧ m.monitored = some true) := by
  constructor
  · intro env cfg ids b hmem eid hid
    unfold process_sonarr_force_unmonitor at hmem
    split at hmem
    · cases hmem
    · next series hser =>
      split at hmem
      · cases hmem
      · next to_un hcol =>
        split at hmem
        · rcases List.mem_singleton.mp hmem with heq
          injection heq with h1 h2
          subst h1
          obtain ⟨s, hs, sid, hsid, eps, heps, ep, hep, h1', h2'⟩ :=
            collectSeries_monitored cfg env series ids hcol eid hid
          exact ⟨series, hser, s, hs, sid, hsid, eps, heps, ep, hep, h1', h2'⟩
        · cases hmem
  · intro env cfg mid b hmem
    unfold process_radarr_force_unmonitor at hmem
    split at hmem
    · cases hmem
    · next movies hmov =>
      obtain ⟨m, hm, h1, h2⟩ :=
        radarrLoop_monitored env cfg movies mid b hmem
      exact ⟨movies, hmov, m, hm, h1, h2⟩

/-- Witness for C8: concrete scans whose single unmonitor target is, in
each service, an item carried with `monitored = some true`. -/
theorem c8_witness :
    (SonarrBatchEvent.bulkUnmonitor [7] true ∈
      (process_sonarr_force_unmonitor
        ⟨some [⟨some 4⟩],
          fun _ => some [⟨some 7, some true, some true,
            some (some ⟨some (some 90), none⟩)⟩],
          fun _ => true⟩
        ⟨some 80, none⟩).2) ∧
    (∀ eid ∈ ([7] : List Int), ∃ series,
      (⟨some [⟨some 4⟩],
        fun _ => some [⟨some 7, some true, some true,
          some (some ⟨some (some 90), none⟩)⟩],
        fun _ => true⟩ : SonarrBatchEnv).series = some series ∧
      ∃ s ∈ series, ∃ sid, s.id = some sid ∧
        ∃ eps, (⟨some [⟨some 4⟩],
          fun _ => some [⟨some 7, some true, some true,
            some (some ⟨some (some 90), none⟩)⟩],
          fun _ => true⟩ : SonarrBatchEnv).episodes sid = some eps ∧
          ∃ ep ∈ eps, ep.id = some eid ∧ ep.monitored = some true) ∧
    (RadarrBatchEvent.unmonitorMovie 3 true ∈
      (process_radarr_force_unmonitor
        ⟨some [⟨some 3, some 5, some true⟩],
          fun _ => some ⟨some (some 90), none⟩,
          fun _ => true⟩
        ⟨some 80, none⟩).2) ∧
    (∃ ms, (⟨some [⟨some 3, some 5, some true⟩],
        fun _ => some ⟨some (some 90), none⟩,
        fun _ => true⟩ : RadarrBatchEnv).movies = some ms ∧
      ∃ m ∈ ms, m.id = some 3 ∧ m.monitored = some true) :=
  ⟨by decide,
    c8_unmonitored_items_never_targeted.1
      ⟨some [⟨some 4⟩],
        fun _ => some [⟨some 7, some true, some true,
          some (some ⟨some (some 90), none⟩)⟩],
        fun _ => true⟩
      ⟨some 80, none⟩ [7] true (by decide),
    by decide,
    c8_unmonitored_items_never_targeted.2
      ⟨some [⟨some 3, some 5, some true⟩],
        fun _ => some ⟨some (some 90), none⟩,
        fun _ => true⟩
      ⟨some 80, none⟩ 3 true (by decide)⟩

/-- C9: every Media Client operation invoked with a mismatched service
type returns `false` or absent without issuing any remote request. -/
theorem c9_mismatched_service_rejected_without_request :
    (∀ (c : SonarrRadarrClient) (env : ApiRequest → Option PyResp),
      c.service_type ≠ "sonarr" →
        (∀ eid, unmonitor_episode c env eid = (false, [])) ∧
        (∀ ids, unmonitor_episodes c env ids = (false, [])) ∧
        (∀ sid hs, get_episodes c env sid hs = (none, [])) ∧
        get_series c env = (none, [])) ∧
    (∀ (c : SonarrRadarrClient) (env : ApiRequest → Option PyResp),
      c.service_type ≠ "radarr" →
        (∀ mid, unmonitor_movie c env mid = (false, [])) ∧
        get_movies c env = (none, []) ∧
        (∀ mid, get_movie_file c env mid = (none, []))) := by
  constructor
  · intro c env h
    refine ⟨fun eid => ?_, fun ids => ?_, fun sid hs => ?_, ?_⟩ <;>
      simp [unmonitor_episode, unmonitor_episodes, get_episodes,
        get_series, h]
  · intro c env h
    refine ⟨fun mid => ?_, ?_, fun mid => ?_⟩ <;>
      simp [unmonitor_movie, get_movies, get_movie_file, h]

/-- Witness for C9: a Radarr client rejects the Sonarr-only operations
and a Sonarr client rejects the Radarr-only ones, each with no request
sent. -/
theorem c9_witness :
    (⟨"host", "token", "radarr"⟩ : SonarrRadarrClient).service_type ≠
        "sonarr" ∧
    unmonitor_episode ⟨"host", "token", "radarr"⟩ (fun _ => none) 1 =
      (false, []) ∧
    unmonitor_episodes ⟨"host", "token", "radarr"⟩ (fun _ => none) [1] =
      (false, []) ∧
    get_series ⟨"host", "token", "radarr"⟩ (fun _ => none) = (none, []) ∧
    (⟨"host", "token", "sonarr"⟩ : SonarrRadarrClient).service_type ≠
        "radarr" ∧
    unmonitor_movie ⟨"host", "token", "sonarr"⟩ (fun _ => none) 1 =
      (false, []) ∧
    get_movie_file ⟨"host", "token", "sonarr"⟩ (fun _ => none) (some 1) =
      (none, []) := by
  have h1 := c9_mismatched_service_rejected_without_request.1
    ⟨"host", "token", "radarr"⟩ (fun _ => none) (by decide)
  have h2 := c9_mismatched_service_rejected_without_request.2
    ⟨"host", "token", "sonarr"⟩ (fun _ => none) (by decide)
  exact ⟨by decide, h1.1 1, h1.2.1 [1], h1.2.2.2, by decide, h2.1 1,
    h2.2.2 (some 1)⟩

theorem setConfigKey_id (c : StoredConfig) (key : String) (v : PyValue) :
    (setConfigKey c key v).id = c.id := by
  unfold setConfigKey
  repeat' split
  all_goals rfl

theorem setConfigKey_webhook_token (c : StoredConfig) (key : String)
    (v : PyValue) :
    (setConfigKey c key v).webhook_token = c.webhook_token := by
  unfold setConfigKey
  repeat' split
  all_goals rfl

theorem applyKwargs_id (kwargs : List (String × PyValue))
    (c : StoredConfig) :
    (kwargs.foldl (fun c p => setConfigKey c p.1 p.2) c).id = c.id := by
  induction kwargs generalizing c with
  | nil => rfl
  | cons p rest ih => rw [List.foldl_cons, ih, setConfigKey_id]

theorem applyKwargs_webhook_token (kwargs : List (String × PyValue))
    (c : StoredConfig) :
    (kwargs.foldl (fun c p => setConfigKey c p.1 p.2) c).webhook_token =
      c.webhook_token := by
  induction kwargs generalizing c with
  | nil => rfl
  | cons p rest ih => rw [List.foldl_cons, ih, setConfigKey_webhook_token]

theorem lookup_none_not_mem {k : String} {c : StoredConfig}
    {configs : List (String × StoredConfig)}
    (h : configs.lookup k = none) : (k, c) ∉ configs := by
  induction configs with
  | nil => simp
  | cons kv rest ih =>
    intro hmem
    rcases List.mem_cons.mp hmem with heq | htail
    · subst heq
      simp [List.lookup] at h
    · have htl : rest.lookup k = none := by
        simp only [List.lookup] at h
        split at h
        · cases h
        · exact h
      exact ih htl htail

/-- C10: `update_config` writes only the whitelisted keys — the target
configuration keeps its `id` and `webhook_token` (only
`regenerate_webhook_token` replaces the token, touching nothing else),
every other stored configuration is unchanged, it returns `true` iff the
id exists, and it leaves the store unchanged when it returns `false`. -/
theorem c10_update_config_frame (configs : List (String × StoredConfig))
    (config_id : String) (kwargs : List (String × PyValue)) :
    ((update_config configs config_id kwargs).1 = true ↔
      (configs.lookup config_id).isSome = true) ∧
    ((update_config configs config_id kwargs).1 = false →
      (update_config configs config_id kwargs).2 = configs) ∧
    (∀ k c, (k, c) ∈ configs → k ≠ config_id →
      (k, c) ∈ (update_config configs config_id kwargs).2) ∧
    (∀ k c, (k, c) ∈ (update_config configs config_id kwargs).2 →
      (k ≠ config_id → (k, c) ∈ configs) ∧
      (k = config_id → ∃ c0, (k, c0) ∈ configs ∧
        c = kwargs.foldl (fun c p => setConfigKey c p.1 p.2) c0 ∧
        c.id = c0.id ∧ c.webhook_token = c0.webhook_token)) ∧
    (∀ new_token k c,
      (k, c) ∈ (regenerate_webhook_token configs config_id new_token).2 →
      (k ≠ config_id → (k, c) ∈ configs) ∧
      (k = config_id → ∃ c0, (k, c0) ∈ configs ∧
        c = { c0 with webhook_token := PyValue.pstr new_token })) := by
  by_cases hex : (configs.lookup config_id).isSome
  · refine ⟨by simp [update_config, hex], ?_, ?_, ?_, ?_⟩
    · intro h
      simp [update_config, hex] at h
    · intro k c hmem hne
      simp only [update_config, hex, if_true]
      exact List.mem_map.mpr ⟨(k, c), hmem, by simp [hne]⟩
    · intro k c hmem
      simp only [update_config, hex, if_true] at hmem
      obtain ⟨kv, hkv, heq⟩ := List.mem_map.mp hmem
      by_cases hk : kv.1 = config_id
      · rw [if_pos hk] at heq
        obtain ⟨h1, h2⟩ := Prod.mk.injEq .. ▸ heq
        constructor
        · intro hne
          exact absurd (h1 ▸ hk) hne
        · intro _
          refine ⟨kv.2, ?_, h2.symm, ?_, ?_⟩
          · rw [← h1]; exact hkv
          · rw [← h2, applyKwargs_id]
          · rw [← h2, applyKwargs_webhook_token]
      · rw [if_neg hk] at heq
        constructor
        · intro _
          rw [← heq]; exact hkv
        · intro hkc
          exact absurd (by rw [heq]; exact hkc) hk
    · intro new_token k c hmem
      simp only [regenerate_webhook_token, hex, if_true] at hmem
      obtain ⟨kv, hkv, heq⟩ := List.mem_map.mp hmem
      by_cases hk : kv.1 = config_id
      · rw [if_pos hk] at heq
        obtain ⟨h1, h2⟩ := Prod.mk.injEq .. ▸ heq
        constructor
        · intro hne
          exact absurd (h1 ▸ hk) hne
        · intro _
          exact ⟨kv.2, by rw [← h1]; exact hkv, h2.symm⟩
      · rw [if_neg hk] at heq
        constructor
        · intro _
          rw [← heq]; exact hkv
        · intro hkc
          exact absurd (by rw [heq]; exact hkc) hk
  · have hnone : configs.lookup config_id = none := by
      cases hl : configs.lookup config_id with
      | none => rfl
      | some v => rw [hl] at hex; simp at hex
    have hfalse : (configs.lookup config_id).isSome = false := by
      rw [hnone]; rfl
    refine ⟨by simp [update_config, hfalse], ?_, ?_, ?_, ?_⟩
    · intro _
      simp [update_config, hfalse]
    · intro k c hmem _
      simpa [update_config, hfalse] using hmem
    · intro k c hmem
      simp only [update_config, hfalse, Bool.false_eq_true, if_false] at hmem
      refine ⟨fun _ => hmem, fun hkc => ?_⟩
      subst hkc
      exact absurd hmem (lookup_none_not_mem hnone)
    · intro new_token k c hmem
      simp only [regenerate_webhook_token, hfalse, Bool.false_eq_true,
        if_false] at hmem
      refine ⟨fun _ => hmem, fun hkc => ?_⟩
      subst hkc
      exact absurd hmem (lookup_none_not_mem hnone)

/-- Witness for C10: updating config "a" with a whitelisted key and a
non-whitelisted `webhook_token` key changes only `name`, keeps `id` and
`webhook_token`, and leaves config "b" untouched. -/
theorem c10_witness :
    (("b", (⟨PyValue.pstr "i2", PyValue.pstr "n2", PyValue.pstr "radarr",
        PyValue.pstr "ip2", PyValue.pstr "t2", PyValue.pstr "w2",
        PyValue.pnone, PyValue.pnone⟩ : StoredConfig)) ∈
      ([("a", (⟨PyValue.pstr "i1", PyValue.pstr "n1", PyValue.pstr "sonarr",
          PyValue.pstr "ip1", PyValue.pstr "t1", PyValue.pstr "w1",
          PyValue.pnone, PyValue.pnone⟩ : StoredConfig)),
        ("b", ⟨PyValue.pstr "i2", PyValue.pstr "n2", PyValue.pstr "radarr",
          PyValue.pstr "ip2", PyValue.pstr "t2", PyValue.pstr "w2",
          PyValue.pnone, PyValue.pnone⟩)])) ∧
    ("b" : String) ≠ "a" ∧
    (("b", (⟨PyValue.pstr "i2", PyValue.pstr "n2", PyValue.pstr "radarr",
        PyValue.pstr "ip2", PyValue.pstr "t2", PyValue.pstr "w2",
        PyValue.pnone, PyValue.pnone⟩ : StoredConfig)) ∈
      (update_config
        [("a", ⟨PyValue.pstr "i1", PyValue.pstr "n1", PyValue.pstr "sonarr",
          PyValue.pstr "ip1", PyValue.pstr "t1", PyValue.pstr "w1",
          PyValue.pnone, PyValue.pnone⟩),
         ("b", ⟨PyValue.pstr "i2", PyValue.pstr "n2", PyValue.pstr "radarr",
          PyValue.pstr "ip2", PyValue.pstr "t2", PyValue.pstr "w2",
          PyValue.pnone, PyValue.pnone⟩)]
        "a"
        [("name", PyValue.pstr "new"),
         ("webhook_token", PyValue.pstr "evil")]).2) ∧
    (∃ c0, ("a", c0) ∈
      ([("a", (⟨PyValue.pstr "i1", PyValue.pstr "n1", PyValue.pstr "sonarr",
          PyValue.pstr "ip1", PyValue.pstr "t1", PyValue.pstr "w1",
          PyValue.pnone, PyValue.pnone⟩ : StoredConfig)),
        ("b", ⟨PyValue.pstr "i2", PyValue.pstr "n2", PyValue.pstr "radarr",
          PyValue.pstr "ip2", PyValue.pstr "t2", PyValue.pstr "w2",
          PyValue.pnone, PyValue.pnone⟩)]) ∧
      (⟨PyValue.pstr "i1", PyValue.pstr "new", PyValue.pstr "sonarr",
        PyValue.pstr "ip1", PyValue.pstr "t1", PyValue.pstr "w1",
        PyValue.pnone, PyValue.pnone⟩ : StoredConfig) =
        ([("name", PyValue.pstr "new"),
          ("webhook_token", PyValue.pstr "evil")] :
            List (String × PyValue)).foldl
          (fun c p => setConfigKey c p.1 p.2) c0 ∧
      (⟨PyValue.pstr "i1", PyValue.pstr "new", PyValue.pstr "sonarr",
        PyValue.pstr "ip1", PyValue.pstr "t1", PyValue.pstr "w1",
        PyValue.pnone, PyValue.pnone⟩ : StoredConfig).id = c0.id ∧
      (⟨PyValue.pstr "i1", PyValue.pstr "new", PyValue.pstr "sonarr",
        PyValue.pstr "ip1", PyValue.pstr "t1", PyValue.pstr "w1",
        PyValue.pnone, PyValue.pnone⟩ : StoredConfig).webhook_token =
        c0.webhook_token) :=
  ⟨by decide, by decide,
    (c10_update_config_frame
      [("a", ⟨PyValue.pstr "i1", PyValue.pstr "n1", PyValue.pstr "sonarr",
        PyValue.pstr "ip1", PyValue.pstr "t1", PyValue.pstr "w1",
        PyValue.pnone, PyValue.pnone⟩),
       ("b", ⟨PyValue.pstr "i2", PyValue.pstr "n2", PyValue.pstr "radarr",
        PyValue.pstr "ip2", PyValue.pstr "t2", PyValue.pstr "w2",
        PyValue.pnone, PyValue.pnone⟩)]
      "a"
      [("name", PyValue.pstr "new"),
       ("webhook_token", PyValue.pstr "evil")]).2.2.1
      "b"
      ⟨PyValue.pstr "i2", PyValue.pstr "n2", PyValue.pstr "radarr",
        PyValue.pstr "ip2", PyValue.pstr "t2", PyValue.pstr "w2",
        PyValue.pnone, PyValue.pnone⟩
      (by decide) (by decide),
    ((c10_update_config_frame
      [("a", ⟨PyValue.pstr "i1", PyValue.pstr "n1", PyValue.pstr "sonarr",
        PyValue.pstr "ip1", PyValue.pstr "t1", PyValue.pstr "w1",
        PyValue.pnone, PyValue.pnone⟩),
       ("b", ⟨PyValue.pstr "i2", PyValue.pstr "n2", PyValue.pstr "radarr",
        PyValue.pstr "ip2", PyValue.pstr "t2", PyValue.pstr "w2",
        PyValue.pnone, PyValue.pnone⟩)]
      "a"
      [("name", PyValue.pstr "new"),
       ("webhook_token", PyValue.pstr "evil")]).2.2.2.1
      "a"
      ⟨PyValue.pstr "i1", PyValue.pstr "new", PyValue.pstr "sonarr",
        PyValue.pstr "ip1", PyValue.pstr "t1", PyValue.pstr "w1",
        PyValue.pnone, PyValue.pnone⟩
      (by decide)).2 rfl⟩
